import Mathlib

set_option maxRecDepth 2000

/-!
# Server-Guard: verification of the attack-simulation console and telemetry dashboard

A shallow embedding of the two stateful pieces of the Server-Guard frontend:

* the attack simulation console (`AttackSimulation` component, current variant using
  the centralized API configuration, and the legacy variant with an inline gateway URL);
* the telemetry dashboard poller (`Dashboard` component).

Wall-clock timestamps, `Math.random`-driven message fragments and locale time
formatting are environment inputs of the JavaScript code; they are modelled as
explicit parameters (they never influence control flow).  JavaScript numbers
carrying probability scores are modelled as `ℚ`; counters and lengths as `ℕ`.
JavaScript truthiness on strings (empty string is falsy) and on numbers
(zero is falsy) is modelled explicitly by the `jsOr*` helpers.
-/

namespace ServerGuard

/-- JavaScript `arr.slice(-n)` for `n > 0`: the suffix of the last `min n len` elements. -/
def jsSliceNeg (n : ℕ) (l : List α) : List α := l.drop (l.length - n)

/-- JavaScript `s || d` for an optional string `s`: absent and empty strings are falsy. -/
def jsOrStr (o : Option String) (d : String) : String :=
  match o with
  | some s => if s = "" then d else s
  | none => d

/-- JavaScript truthiness of an optional string: present and non-empty. -/
def jsTruthyStr (o : Option String) : Bool :=
  match o with
  | some s => !(s == "")
  | none => false

/-- JavaScript `n || d` for an optional number `n`: absent and `0` are falsy. -/
def jsOrNat (o : Option ℕ) (d : ℕ) : ℕ :=
  match o with
  | some n => if n = 0 then d else n
  | none => d

/-- JavaScript `Math.round` on the rational value of a JS number: floor of `q + 1/2`. -/
def jsRound (q : ℚ) : ℤ := ⌊q + (1 : ℚ) / 2⌋

/-- JavaScript `s.toUpperCase()` on ASCII strings: uppercase every character. -/
def jsToUpper (s : String) : String := ⟨s.data.map Char.toUpper⟩

/-! ## Attack simulation console (src/unnamed/part_001, legacy variant src/unnamed/part_000)

State of the `AttackSimulation` component: the `status` / `activeModuleId` /
`logs` React state, the `config` fields that the claims mention, and an explicit
account of `setInterval` timers: `timerRef` is the id stored in the React ref,
`aliveTimers` the list of interval ids that were scheduled and not (yet)
cancelled, `nextTimerId` a fresh-id source, and `timerCounter` the `counter`
closure variable of the currently armed synthetic-log interval.  `fetchCount`
counts the network requests issued. -/

/-- The `status` React state: 'READY' | 'ATTACKING' | 'BLOCKED'. -/
inductive SimStatus where
  | ready
  | attacking
  | blocked
deriving DecidableEq, Repr

/-- One entry of the console log list: `{ ts, msg, type }`. -/
structure SimEntry where
  ts : String
  msg : String
  type : String
deriving DecidableEq, Repr

/-- Component state of the attack simulation console. -/
structure SimState where
  status : SimStatus
  activeModuleId : Option String
  logs : List SimEntry
  timerRef : Option ℕ
  aliveTimers : List ℕ
  nextTimerId : ℕ
  timerCounter : ℕ
  fetchCount : ℕ
  target : String
  requests : ℕ
  threads : ℕ
deriving DecidableEq

/-- `INITIAL_LOGS` of the simulation console. -/
def INITIAL_LOGS : List SimEntry := [
  ⟨"00:00:01", "[INIT] Security Operations Console v3.1.0 starting...", "system"⟩,
  ⟨"00:00:01", "[KERNEL] Linux 5.15.0-generic x86_64 loaded successfully", "info"⟩,
  ⟨"00:00:02", "[NETWORK] Secure uplink established — RTT: 12ms, jitter: 2ms", "success"⟩,
  ⟨"00:00:02", "[MODULE] Loading AI defense infrastructure...", "info"⟩,
  ⟨"00:00:03", "[AI] Web Gatekeeper model initialized (accuracy: 98.2%)", "success"⟩,
  ⟨"00:00:03", "[AI] Network Shield model initialized (accuracy: 97.8%)", "success"⟩,
  ⟨"00:00:04", "[AUTH] Elevated privileges granted — Session ID: 0x7F3A9C", "warning"⟩,
  ⟨"00:00:04", "[MONITOR] Real-time threat detection active", "info"⟩,
  ⟨"00:00:05", "[STATUS] System ready — Awaiting simulation parameters...", "info"⟩]

/-- List-level body of `addLog`: `setLogs(prev => [...prev.slice(-100), { ts, msg, type }])`. -/
def simAddLogList (l : List SimEntry) (e : SimEntry) : List SimEntry :=
  jsSliceNeg 100 l ++ [e]

/-- `addLog(msg, type)` at timestamp `ts` (the `toTimeString` prefix of `new Date()`). -/
def simAddLog (ts msg ty : String) (s : SimState) : SimState :=
  { s with logs := simAddLogList s.logs ⟨ts, msg, ty⟩ }

/-- `clearInterval(timerRef.current); timerRef.current = null` guarded by
`if (timerRef.current)`. -/
def clearTimer (s : SimState) : SimState :=
  match s.timerRef with
  | none => s
  | some i => { s with aliveTimers := s.aliveTimers.filter (fun j => j ≠ i), timerRef := none }

/-- The post-`try` block of `startAttack` (part_001 lines 489-498): clear any existing
interval, then `timerRef.current = setInterval(...)` with the closure counter at 0. -/
def armTimer (s : SimState) : SimState :=
  let s' := clearTimer s
  { s' with aliveTimers := s'.aliveTimers ++ [s'.nextTimerId],
            timerRef := some s'.nextTimerId,
            nextTimerId := s'.nextTimerId + 1,
            timerCounter := 0 }

/-- `attackNames[moduleId] || moduleId.toUpperCase()`. -/
def attackName (mid : String) : String :=
  if mid = "sql" then "SQL Injection"
  else if mid = "brute" then "Brute Force"
  else if mid = "flood" then "DDoS Attack"
  else if mid = "scan" then "Port Scan"
  else jsToUpper mid

/-- The synchronous head of `startAttack` after the `status === 'ATTACKING'` guard
(part_001 lines 389-447): set state to ATTACKING, record the module, append the
two [ATTACK]/[CONFIG] log lines and issue the `fetch` to `/api/analyze`. -/
def beginAttack (mid ts1 ts2 : String) (s : SimState) : SimState :=
  let s1 : SimState := { s with status := .attacking, activeModuleId := some mid }
  let s2 := simAddLog ts1
    ("[ATTACK] Initializing " ++ attackName mid ++ " simulation module") "warning" s1
  let s3 := simAddLog ts2
    ("[CONFIG] Target: " ++ (if s.target = "" then "backend API" else s.target) ++
      " | Concurrency: " ++ toString s.threads ++ " threads | Requests: " ++
      toString s.requests) "info" s2
  { s3 with fetchCount := s3.fetchCount + 1 }

/-- Outcome of the `fetch` to `/api/analyze` as seen by the `await` continuation. -/
inductive FetchOutcome where
  /-- `res.ok` with decoded JSON fields `status`, `threat_level`,
  `web_ai_score`, `net_ai_score`, `source`. -/
  | okData (status threat : Option String) (web net : Option ℚ) (source : Option String)
  /-- `res.ok` false: error body / statusText rendered as `emsg`. -/
  | httpError (emsg : String)
  /-- the `fetch` or `res.json()` promise rejected. -/
  | netError
deriving DecidableEq

/-- `data.web_ai_score !== undefined ? (data.web_ai_score * 100).toFixed(1) + '%' : 'N/A'`;
`toFixed1` is the JS decimal formatting, passed in as a parameter. -/
def fmtScore (toFixed1 : ℚ → String) (x : Option ℚ) : String :=
  match x with
  | some v => toFixed1 (v * 100) ++ "%"
  | none => "N/A"

/-- Response handling of `startAttack` (part_001 lines 449-486): the bodies of
`if (res.ok) { ... } else { ... }` and of `catch`.  The `setTimeout` return-to-READY
scheduled on the `res.ok` path is the separate event `autoReturn`. -/
def respond (toFixed1 : ℚ → String) (ts : String) (o : FetchOutcome) (s : SimState) :
    SimState :=
  match o with
  | .okData st threat web net src =>
      let aiStatus := jsOrStr st "allowed"
      let aiThreat := jsOrStr threat "low"
      let webScore := fmtScore toFixed1 web
      let netScore := fmtScore toFixed1 net
      if aiStatus = "blocked" then
        { simAddLog ts
            ("[AI-DEFENSE] ⚠️ THREAT BLOCKED | Source: " ++ jsOrStr src "AI Model" ++
              " | Threat Level: " ++ jsToUpper aiThreat ++ " | Web Confidence: " ++ webScore ++
              " | Net Confidence: " ++ netScore) "error" s
          with status := .blocked }
      else
        simAddLog ts
          ("[AI-DEFENSE] ✔️ REQUEST ALLOWED | Source: " ++ jsOrStr src "AI Model" ++
            " | Threat Level: " ++ jsToUpper aiThreat ++ " | Web Score: " ++ webScore ++
            " | Net Score: " ++ netScore) "success" s
  | .httpError emsg =>
      let s1 := simAddLog ts ("[ERROR] AI service returned error: " ++ emsg) "error" s
      let s2 := clearTimer s1
      { s2 with status := .ready, activeModuleId := none }
  | .netError =>
      simAddLog ts
        "[WARNING] AI endpoint unavailable — Running in offline simulation mode"
        "warning" s

/-- The `setTimeout(..., 1200)` body on the `res.ok` path (part_001 lines 462-471):
clear the interval, return to READY, clear the module, log completion. -/
def autoReturn (ts : String) (s : SimState) : SimState :=
  let s1 := clearTimer s
  simAddLog ts "[STATUS] Simulation complete — System returned to monitoring state"
    "info" { s1 with status := .ready, activeModuleId := none }

/-- One firing of the synthetic-log interval (part_001 lines 498-532): increment the
closure counter; at `maxIterations = 15` clear the interval and return, otherwise
append one template-generated log line (its text and category are data, passed in). -/
def tick (ts msg ty : String) (s : SimState) : SimState :=
  match s.timerRef with
  | none => s
  | some _ =>
      let c := s.timerCounter + 1
      if 15 ≤ c then clearTimer { s with timerCounter := c }
      else simAddLog ts msg ty { s with timerCounter := c }

/-- `stopAttack` (part_001 lines 535-544): clear the interval, return to READY,
clear the module, append the abort and idle log lines. -/
def stopAttack (ts1 ts2 : String) (s : SimState) : SimState :=
  let s1 := clearTimer s
  let s2 : SimState := { s1 with status := .ready, activeModuleId := none }
  let s3 := simAddLog ts1 "[ABORT] Attack simulation terminated by operator" "error" s2
  simAddLog ts2 "[STATUS] All connections closed — System returning to idle state"
    "info" s3

/-- The whole `startAttack(moduleId)` run without interleaving: the
`status === 'ATTACKING'` guard, then the begin phase, the response handling for
outcome `o`, and the arming of the synthetic-log interval. -/
def startAttack (toFixed1 : ℚ → String) (mid ts1 ts2 ts3 : String) (o : FetchOutcome)
    (s : SimState) : SimState :=
  if s.status = .attacking then s
  else armTimer (respond toFixed1 ts3 o (beginAttack mid ts1 ts2 s))

/-- Initial component state, parametrized by the environment-dependent
`DEFAULT_TARGET = API_CONFIG.API_GATEWAY`. -/
def initSimState (target : String) : SimState :=
  { status := .ready, activeModuleId := none, logs := INITIAL_LOGS,
    timerRef := none, aliveTimers := [], nextTimerId := 0, timerCounter := 0,
    fetchCount := 0, target := target, requests := 10000, threads := 64 }

/-- The individually schedulable operations of the console, as they run on the
JS event loop: the guarded start phase, the fetch continuation, the arming of the
interval, an interval firing, the 1200 ms return-to-READY timeout, and manual stop. -/
inductive SimEvent where
  | start (mid ts1 ts2 : String)
  | response (ts : String) (o : FetchOutcome)
  | arm
  | tickEv (ts msg ty : String)
  | autoRet (ts : String)
  | stop (ts1 ts2 : String)

/-- Small-step interpretation of one console event. -/
def simStep (toFixed1 : ℚ → String) (e : SimEvent) (s : SimState) : SimState :=
  match e with
  | .start mid ts1 ts2 => if s.status = .attacking then s else beginAttack mid ts1 ts2 s
  | .response ts o => respond toFixed1 ts o s
  | .arm => armTimer s
  | .tickEv ts msg ty => tick ts msg ty s
  | .autoRet ts => autoReturn ts s
  | .stop ts1 ts2 => stopAttack ts1 ts2 s

/-! ### Legacy console variant (src/unnamed/part_000)

Same component state; `startAttack` there has an additional empty-target guard
(`if (!config.target)`) that appends one error log and returns, and its post-fetch
interval is started without clearing an existing one. -/

/-- Outcome of the legacy `fetch('http://localhost:3001/attack')` continuation. -/
inductive LegacyOutcome where
  /-- `data.success`: attack routed, with `nodes_targeted` and per-node results. -/
  | success (nodesTargeted : ℕ) (results : Option (List (String × String)))
  /-- `!data.success && data.blocked`. -/
  | blockedResp (message : String)
  /-- `!data.success && !data.blocked`. -/
  | backendError (err : Option String)
  /-- the fetch promise rejected with message `emsg`. -/
  | netError (emsg : String)
deriving DecidableEq

/-- Legacy response handling (part_000 lines 276-296). -/
def legacyRespond (ts : String) (o : LegacyOutcome) (s : SimState) : SimState :=
  match o with
  | .success n results =>
      let s1 := simAddLog ts
        ("[Backend] Attack routed successfully to " ++ toString n ++ " nodes") "success" s
      (results.getD []).foldl
        (fun acc r =>
          simAddLog ts ("Node " ++ r.1 ++ ": " ++ r.2)
            (if r.2 = "delivered" then "info" else "error") acc) s1
  | .blockedResp message =>
      { simAddLog ts ("[SHIELD] Attack BLOCKED by Defense Engine: " ++ message)
          "error" s with status := .blocked }
  | .backendError err =>
      simAddLog ts ("[Backend] Error: " ++ jsOrStr err "Unknown error") "error" s
  | .netError emsg =>
      simAddLog ts ("[Network] Failed to contact Gateway: " ++ emsg) "error" s

/-- Legacy `timerRef.current = setInterval(...)` (part_000 line 300): no preceding
`clearInterval` of an already-running interval. -/
def legacyStartTimer (s : SimState) : SimState :=
  { s with aliveTimers := s.aliveTimers ++ [s.nextTimerId],
           timerRef := some s.nextTimerId,
           nextTimerId := s.nextTimerId + 1,
           timerCounter := 0 }

/-- Legacy `startAttack` (part_000 lines 242-312): the `ATTACKING` guard, then the
empty-target guard that only appends one error log entry, then the attack flow. -/
def legacyStartAttack (mid ts1 ts2 ts3 : String) (o : LegacyOutcome) (s : SimState) :
    SimState :=
  if s.status = .attacking then s
  else if s.target = "" then
    simAddLog ts1 "FAILURE: Cannot initialize attack module. Target server undefined."
      "error" s
  else
    let s1 : SimState := { s with status := .attacking, activeModuleId := some mid }
    let s2 := simAddLog ts1 ("Initializing module: " ++ jsToUpper mid) "warning" s1
    let s3 := simAddLog ts2
      ("Target: " ++ s.target ++ " | Threads: " ++ toString s.threads) "info" s2
    let s4 : SimState := { s3 with fetchCount := s3.fetchCount + 1 }
    legacyStartTimer (legacyRespond ts3 o s4)

/-- Legacy initial component state (target preset to `'192.168.1.10'`). -/
def legacyInitState : SimState := initSimState "192.168.1.10"

/-! ## Telemetry dashboard poller (src/frontend/src/pages/Dashboard.jsx) -/

/-- One raw log record of the `GET /api/dashboard` snapshot.  The `id` field is
modelled as a string; its `Date.now() + Math.random()` fallback is a parameter. -/
structure RawLog where
  id : Option String
  service : Option String
  attack_type : Option String
  status : Option String
  score : Option ℚ
  threat_level : Option String
  timestamp : Option String
  message : Option String
  is_ai_gen : Option Bool
deriving DecidableEq

/-- The `GET /api/dashboard` response body. -/
structure Snapshot where
  logs : Option (List RawLog)
  total_logs : Option ℕ
deriving DecidableEq

/-- A normalized dashboard log entry, as produced inside `poll`. -/
structure NormLog where
  id : String
  msg : String
  ts : String
  status : Option String
  score : Option ℚ
  threat : Option String
  source : String
  is_ai_gen : Bool
deriving DecidableEq

/-- A derived alert. -/
structure Alert where
  id : String
  type : String
  source : String
  msg : String
  conf : ℤ
  time : String
  isAiGen : Bool
  isBlocked : Bool
deriving DecidableEq

/-- A telemetry chart sample `{ cpu, memory, net }`. -/
structure TelemetrySample where
  cpu : ℕ
  memory : ℕ
  net : ℕ
deriving DecidableEq

/-- A monitored node of the node sidebar. -/
structure DashNode where
  id : String
  name : String
  ip : String
  type : String
  status : String
deriving DecidableEq

/-- Summary counters `{ events, blocked }`. -/
structure DashStats where
  events : ℕ
  blocked : ℕ
deriving DecidableEq

/-- Dashboard component state touched by `poll`. -/
structure DashState where
  telemetryHistory : List TelemetrySample
  logs : List NormLog
  alerts : List Alert
  nodes : List DashNode
  selectedNode : Option String
  stats : DashStats
  lastPollError : Option String
deriving DecidableEq

/-- `formatService`: the fixed service-label lookup table with raw pass-through. -/
def formatService (service : String) : String :=
  if service = "web_frontend" then "Web Frontend"
  else if service = "auth_service" then "Auth Service"
  else if service = "api_gateway" then "API Gateway"
  else if service = "network_scanner" then "Network Scanner"
  else if service = "ping_test" then "Health Check"
  else if service = "unknown" then "System"
  else service

/-- `formatAttack`: `attackMap[attack] || attack || 'Request processed'`. -/
def formatAttack (attack : String) : String :=
  if attack = "sql_injection" then "SQL Injection detected"
  else if attack = "brute_force" then "Brute force attempt"
  else if attack = "ddos" then "DDoS attack detected"
  else if attack = "port_scan" then "Port scan detected"
  else if attack = "xss" then "XSS attempt detected"
  else if attack = "" then "Request processed"
  else attack

/-- `l.status === 'blocked' ? '⛔ Blocked' : l.status === 'warning' ? '⚠️ Warning'
: '✅ Allowed'`. -/
def normStatusText (l : RawLog) : String :=
  if l.status = some "blocked" then "⛔ Blocked"
  else if l.status = some "warning" then "⚠️ Warning"
  else "✅ Allowed"

/-- `attackType || l.message || statusText` where
`attackType = l.attack_type ? formatAttack(l.attack_type) : ''`. -/
def normMessageBase (l : RawLog) : String :=
  let attackType := if jsTruthyStr l.attack_type then formatAttack (l.attack_type.getD "")
                    else ""
  if attackType ≠ "" then attackType
  else if jsTruthyStr l.message then l.message.getD ""
  else normStatusText l

/-- Normalization of one raw record (Dashboard.jsx lines 53-74).  `fallbackId`
stands for the `Date.now() + Math.random()` fallback id, `fmtTs` for the
locale time formatting of `l.timestamp` (or of the current time when absent). -/
def normalizeLog (fallbackId : String) (fmtTs : Option String → String) (l : RawLog) :
    NormLog :=
  let message :=
    if jsTruthyStr l.threat_level = true ∧ l.threat_level ≠ some "low" then
      normMessageBase l ++ " — Threat: " ++ jsToUpper (l.threat_level.getD "")
    else normMessageBase l
  { id := jsOrStr l.id fallbackId,
    msg := message,
    ts := fmtTs l.timestamp,
    status := l.status,
    score := l.score,
    threat := l.threat_level,
    source := formatService (jsOrStr l.service "unknown"),
    is_ai_gen := l.is_ai_gen.getD false }

/-- `(data.logs || []).map(normalize).slice(-50)`. -/
def normalizedLogsOf (fallbackId : String) (fmtTs : Option String → String)
    (snap : Snapshot) : List NormLog :=
  jsSliceNeg 50 ((snap.logs.getD []).map (normalizeLog fallbackId fmtTs))

/-- The alert built from one qualifying normalized entry (Dashboard.jsx lines 81-90). -/
def mkAlert (l : NormLog) : Alert :=
  { id := l.id,
    type := if l.status = some "blocked" then "critical" else "warning",
    source := if l.source = "" then "AI Defense" else l.source,
    msg := l.msg,
    conf := jsRound (l.score.getD 0 * 100),
    time := l.ts,
    isAiGen := l.is_ai_gen,
    isBlocked := l.status == some "blocked" }

/-- `normalizedLogs.filter(l => l.status === 'blocked' || l.status === 'warning').map(...)`. -/
def derivedAlerts (logs : List NormLog) : List Alert :=
  (logs.filter (fun l => l.status == some "blocked" || l.status == some "warning")).map
    mkAlert

/-- The telemetry sample appended by a successful poll, as a function of the
normalized log volume `n`. -/
def pollSample (n : ℕ) : TelemetrySample :=
  { cpu := min 99 (10 + n % 70),
    memory := 40 + (n * 3) % 40,
    net := 50 + (n * 5) % 300 }

/-- The single synthetic detection-engine node. -/
def detectionNode : DashNode :=
  { id := "model-microservice", name := "Detection Engine", ip := "127.0.0.1:8006",
    type := "Firewall", status := "online" }

/-- One execution of `poll` (Dashboard.jsx lines 22-119).  `none` stands for a
rejected fetch or JSON decode, which lands in the `catch` block; `some snap`
for a decoded snapshot. -/
def pollStep (fallbackId : String) (fmtTs : Option String → String)
    (snap? : Option Snapshot) (s : DashState) : DashState :=
  match snap? with
  | none => { s with lastPollError := some "Model service unreachable" }
  | some snap =>
      let nl := normalizedLogsOf fallbackId fmtTs snap
      let alerts := derivedAlerts nl
      { telemetryHistory := s.telemetryHistory.drop 1 ++ [pollSample nl.length],
        logs := nl,
        alerts := alerts,
        nodes := [detectionNode],
        selectedNode := some "model-microservice",
        stats := { events := jsOrNat snap.total_logs nl.length,
                   blocked := (alerts.filter (fun a => a.type == "critical")).length },
        lastPollError := none }

/-- Initial dashboard state: `telemetryHistory = Array(30).fill({cpu:0,memory:0,net:0})`,
everything else empty. -/
def initDashState : DashState :=
  { telemetryHistory := List.replicate 30 ⟨0, 0, 0⟩,
    logs := [], alerts := [], nodes := [], selectedNode := none,
    stats := ⟨0, 0⟩, lastPollError := none }

/-! ## Basic lemmas -/

theorem jsSliceNeg_length (n : ℕ) (l : List α) :
    (jsSliceNeg n l).length = min l.length n := by
  simp only [jsSliceNeg, List.length_drop]
  omega

theorem jsSliceNeg_of_length_le {n : ℕ} {l : List α} (h : l.length ≤ n) :
    jsSliceNeg n l = l := by
  simp [jsSliceNeg, Nat.sub_eq_zero_of_le h]

theorem jsSliceNeg_suffix (n : ℕ) (l : List α) : jsSliceNeg n l <:+ l :=
  List.drop_suffix _ _

theorem simAddLogList_length_le (l : List SimEntry) (e : SimEntry) :
    (simAddLogList l e).length ≤ 101 := by
  simp only [simAddLogList, List.length_append, jsSliceNeg_length, List.length_singleton]
  omega

theorem simAddLogList_suffix (l : List SimEntry) (e : SimEntry) :
    simAddLogList l e <:+ l ++ [e] := by
  obtain ⟨t, ht⟩ := jsSliceNeg_suffix 100 l
  exact ⟨t, by rw [simAddLogList, ← List.append_assoc, ht]⟩

theorem simAddLogList_of_length_le {l : List SimEntry} (e : SimEntry)
    (h : l.length ≤ 100) : simAddLogList l e = l ++ [e] := by
  simp [simAddLogList, jsSliceNeg_of_length_le h]

/-! ## Claims -/

/-- **C1, counterexample.**  Starting from the console's `INITIAL_LOGS` (9 entries),
a sequence of 92 `addLog` appends drives the simulation log list to 101 entries:
`prev.slice(-100)` keeps the last 100 entries and then one more is appended, so the
list exceeds the claimed cap of 100. -/
theorem c1_sim_cap_counterexample :
    100 < ((List.replicate 92 (⟨"00:00:06", "x", "info"⟩ : SimEntry)).foldl
      simAddLogList INITIAL_LOGS).length := by
  decide

/-- **C1 (amended).**  Each simulation `addLog` leaves at most 101 entries (the last
100 previous entries plus the new one) and is tail-preserving: the new list is a
suffix of the old list with the new entry appended.  The dashboard's normalized log
list never holds more than 50 entries and is a tail-preserving window of the mapped
snapshot. -/
theorem c1_caps_amended :
    (∀ (l : List SimEntry) (e : SimEntry),
        (simAddLogList l e).length ≤ 101 ∧ simAddLogList l e <:+ l ++ [e]) ∧
    (∀ (fallbackId : String) (fmtTs : Option String → String) (snap : Snapshot),
        (normalizedLogsOf fallbackId fmtTs snap).length ≤ 50 ∧
        normalizedLogsOf fallbackId fmtTs snap <:+
          (snap.logs.getD []).map (normalizeLog fallbackId fmtTs)) := by
  constructor
  · exact fun l e => ⟨simAddLogList_length_le l e, simAddLogList_suffix l e⟩
  · intro fallbackId fmtTs snap
    refine ⟨?_, jsSliceNeg_suffix _ _⟩
    simp only [normalizedLogsOf, jsSliceNeg_length]
    omega

/-- **C4.**  A failed dashboard poll (rejected fetch or JSON decode, i.e. the
`catch` branch) leaves `logs`, `alerts`, `nodes`, `selectedNode`, `stats` and the
telemetry history unchanged; the only state change is setting the "Model service
unreachable" error indicator.  The failure is absorbed by `pollStep` itself, so it
never propagates past the polling loop. -/
theorem c4_poll_failure_preserves_state (fallbackId : String)
    (fmtTs : Option String → String) (s : DashState) :
    (pollStep fallbackId fmtTs none s).logs = s.logs ∧
    (pollStep fallbackId fmtTs none s).alerts = s.alerts ∧
    (pollStep fallbackId fmtTs none s).nodes = s.nodes ∧
    (pollStep fallbackId fmtTs none s).selectedNode = s.selectedNode ∧
    (pollStep fallbackId fmtTs none s).stats = s.stats ∧
    (pollStep fallbackId fmtTs none s).telemetryHistory = s.telemetryHistory ∧
    (pollStep fallbackId fmtTs none s).lastPollError = some "Model service unreachable" :=
  ⟨rfl, rfl, rfl, rfl, rfl, rfl, rfl⟩

/-- **C9.**  The telemetry history starts full at exactly 30 samples; every
successful poll cycle evicts the oldest sample (the head) and appends exactly one
new one at the tail (strict FIFO), keeping the length at exactly 30, and the
appended sample's `cpu` value never exceeds 99. -/
theorem c9_telemetry_ring :
    initDashState.telemetryHistory.length = 30 ∧
    (∀ (fallbackId : String) (fmtTs : Option String → String) (snap : Snapshot)
        (s : DashState), s.telemetryHistory.length = 30 →
      (pollStep fallbackId fmtTs (some snap) s).telemetryHistory =
        s.telemetryHistory.tail ++
          [pollSample (normalizedLogsOf fallbackId fmtTs snap).length] ∧
      (pollStep fallbackId fmtTs (some snap) s).telemetryHistory.length = 30) ∧
    (∀ n : ℕ, (pollSample n).cpu ≤ 99) := by
  refine ⟨rfl, ?_, fun n => by simp [pollSample]⟩
  intro fallbackId fmtTs snap s h
  constructor
  · simp [pollStep, List.drop_one]
  · simp only [pollStep, List.length_append, List.length_drop, h,
      List.length_singleton]

/-- **C9, witness.**  The preservation part of `c9_telemetry_ring` applied to the
initial dashboard state and an empty snapshot. -/
theorem c9_telemetry_ring_witness :
    (pollStep "x" (fun _ => "t") (some ⟨none, none⟩) initDashState).telemetryHistory =
      initDashState.telemetryHistory.tail ++
        [pollSample (normalizedLogsOf "x" (fun _ => "t") ⟨none, none⟩).length] ∧
    (pollStep "x" (fun _ => "t") (some ⟨none, none⟩) initDashState).telemetryHistory.length
      = 30 :=
  c9_telemetry_ring.2.1 "x" (fun _ => "t") ⟨none, none⟩ initDashState rfl

/-- **C2, counterexample.**  In the current console (the variant built on
`API_CONFIG`), `startAttack` has no empty-target guard: from the READY initial
state with an empty target it switches the state to ATTACKING and issues a network
request (the empty target only selects the relative `/api` base), so the claim
fails there. -/
theorem c2_empty_target_counterexample :
    (initSimState "").status = .ready ∧ (initSimState "").fetchCount = 0 ∧
    (startAttack (fun _ => "") "sql" "t1" "t2" "t3" .netError (initSimState "")).status
      = .attacking ∧
    (startAttack (fun _ => "") "sql" "t1" "t2" "t3" .netError (initSimState "")).fetchCount
      = 1 :=
  ⟨rfl, rfl, rfl, rfl⟩

/-- **C2 (amended).**  In the legacy console variant, invoking `startAttack` with an
empty target while not ATTACKING leaves the whole state unchanged — in particular
the status stays READY and no network request is issued — except for appending
exactly one error log entry. -/
theorem c2_legacy_empty_target (mid ts1 ts2 ts3 : String) (o : LegacyOutcome)
    (s : SimState) (hs : s.status ≠ SimStatus.attacking) (ht : s.target = "") :
    legacyStartAttack mid ts1 ts2 ts3 o s =
      { s with logs := (simAddLogList s.logs
          ⟨ts1, "FAILURE: Cannot initialize attack module. Target server undefined.",
            "error"⟩) } := by
  simp [legacyStartAttack, hs, ht, simAddLog]

/-- **C2, witness.**  `c2_legacy_empty_target` at the legacy initial state with the
target cleared. -/
theorem c2_legacy_empty_target_witness :
    legacyStartAttack "sql" "a" "b" "c" (.netError "x")
        { legacyInitState with target := "" } =
      { { legacyInitState with target := "" } with
          logs := (simAddLogList { legacyInitState with target := "" }.logs
            ⟨"a", "FAILURE: Cannot initialize attack module. Target server undefined.",
              "error"⟩) } :=
  c2_legacy_empty_target "sql" "a" "b" "c" (.netError "x")
    { legacyInitState with target := "" } (by decide) rfl

/-- **C5, counterexample.**  `stopAttack` is not a no-op from READY: it
unconditionally appends the abort and idle log entries, so invoking it on the READY
initial state changes the state, and a second invocation appends two further
entries beyond the first call's effect. -/
theorem c5_stop_counterexample :
    (initSimState "x").status = .ready ∧
    stopAttack "t1" "t2" (initSimState "x") ≠ initSimState "x" ∧
    (stopAttack "t3" "t4" (stopAttack "t1" "t2" (initSimState "x"))).logs.length =
      (stopAttack "t1" "t2" (initSimState "x")).logs.length + 2 := by
  refine ⟨rfl, ?_, rfl⟩
  decide

/-- **C5 (amended).**  Invoking `stopAttack` when the console is already READY (no
active module, no armed timer) leaves the status, module and timer state unchanged
and only appends the two abort/idle log entries again: stop is idempotent on the
machine state but not on the log list. -/
theorem c5_stop_ready_amended (ts1 ts2 : String) (s : SimState)
    (h1 : s.status = SimStatus.ready) (h2 : s.activeModuleId = none)
    (h3 : s.timerRef = none) :
    stopAttack ts1 ts2 s =
      { s with logs := (simAddLogList
          (simAddLogList s.logs
            ⟨ts1, "[ABORT] Attack simulation terminated by operator", "error"⟩)
          ⟨ts2, "[STATUS] All connections closed — System returning to idle state",
            "info"⟩) } := by
  cases s
  simp_all [stopAttack, clearTimer, simAddLog]

/-- **C5, witness.**  `c5_stop_ready_amended` at the READY initial state. -/
theorem c5_stop_ready_amended_witness :
    stopAttack "a" "b" (initSimState "x") =
      { initSimState "x" with logs := (simAddLogList
          (simAddLogList (initSimState "x").logs
            ⟨"a", "[ABORT] Attack simulation terminated by operator", "error"⟩)
          ⟨"b", "[STATUS] All connections closed — System returning to idle state",
            "info"⟩) } :=
  c5_stop_ready_amended "a" "b" (initSimState "x") rfl rfl rfl

/-- **C3.**  The derived alert list is exactly one alert per normalized entry whose
status is "blocked" or "warning" (in order, none for any other status); a "blocked"
entry yields severity `critical` and any other qualifying entry severity `warning`,
with confidence `round(score × 100)` (absent scores count as 0).  On the snapshot
holding the single record `{service: web_frontend, attack_type: sql_injection,
status: blocked, score: 0.97, threat_level: high}` this produces exactly one alert
with severity `critical`, confidence 97, and a message containing both
"SQL Injection detected" and "Threat: HIGH". -/
theorem c3_derived_alerts :
    (∀ logs : List NormLog,
      derivedAlerts logs =
        (logs.filter
          (fun l => decide (l.status = some "blocked" ∨ l.status = some "warning"))).map
          mkAlert) ∧
    (∀ l : NormLog,
      (mkAlert l).type = (if l.status = some "blocked" then "critical" else "warning") ∧
      (mkAlert l).conf = jsRound (l.score.getD 0 * 100)) ∧
    ((derivedAlerts (normalizedLogsOf "x" (fun _ => "t")
        ⟨some [⟨none, some "web_frontend", some "sql_injection", some "blocked",
                some (97 / 100), some "high", none, none, none⟩], none⟩)).map
        Alert.type = ["critical"] ∧
      (derivedAlerts (normalizedLogsOf "x" (fun _ => "t")
        ⟨some [⟨none, some "web_frontend", some "sql_injection", some "blocked",
                some (97 / 100), some "high", none, none, none⟩], none⟩)).map
        Alert.conf = [97] ∧
      (derivedAlerts (normalizedLogsOf "x" (fun _ => "t")
        ⟨some [⟨none, some "web_frontend", some "sql_injection", some "blocked",
                some (97 / 100), some "high", none, none, none⟩], none⟩)).map
        Alert.msg = ["SQL Injection detected — Threat: HIGH"]) ∧
    (∃ a b : String,
      "SQL Injection detected — Threat: HIGH" = a ++ "SQL Injection detected" ++ b) ∧
    (∃ a b : String,
      "SQL Injection detected — Threat: HIGH" = a ++ "Threat: HIGH" ++ b) := by
  refine ⟨?_, ?_, ?_, ⟨"", " — Threat: HIGH", rfl⟩,
    ⟨"SQL Injection detected — ", "", rfl⟩⟩
  · intro logs
    unfold derivedAlerts
    congr 1
    apply List.filter_congr
    intro x _
    by_cases h1 : x.status = some "blocked" <;> by_cases h2 : x.status = some "warning" <;>
      simp [h1, h2]
  · exact fun l => ⟨rfl, rfl⟩
  · refine ⟨by decide, ?_, by decide⟩
    simp [derivedAlerts, normalizedLogsOf, jsSliceNeg, normalizeLog, mkAlert,
      normMessageBase, normStatusText, formatAttack, formatService, jsOrStr,
      jsTruthyStr, Option.getD]
    norm_num [jsRound]

/-- **C6, counterexample.**  For a record with an absent attack type (and no
message), the normalized display message is the status text "✅ Allowed" — never
the generic "Request processed" promised by the claim: in the normalization
pipeline `formatAttack` is only invoked when the attack type is present, so its
"Request processed" fallback is unreachable. -/
theorem c6_normalization_counterexample :
    (normalizeLog "x" (fun _ => "t")
        ⟨none, none, none, none, none, none, none, none, none⟩).msg = "✅ Allowed" ∧
    (normalizeLog "x" (fun _ => "t")
        ⟨none, none, none, none, none, none, none, none, none⟩).msg
      ≠ "Request processed" := by
  exact ⟨rfl, by decide⟩

/-- **C6 (amended).**  Normalization maps the service identifier through the fixed
lookup table, passing unknown raw values through unchanged; when the attack type is
present it is mapped through the attack lookup table with fallback to the raw code,
and when it is absent the display message falls back to the record's own message,
or else to the status text (the helper `formatAttack` does return
"Request processed" on an empty code, but the pipeline never calls it that way);
the composed message carries the threat-level suffix exactly when the threat level
is present and not "low". -/
theorem c6_normalization_amended (l : RawLog) (fallbackId : String)
    (fmtTs : Option String → String) :
    (normalizeLog fallbackId fmtTs l).source = formatService (jsOrStr l.service "unknown") ∧
    (∀ s : String, s ∉ (["web_frontend", "auth_service", "api_gateway",
        "network_scanner", "ping_test", "unknown"] : List String) → formatService s = s) ∧
    normMessageBase l =
      (if jsTruthyStr l.attack_type then formatAttack (l.attack_type.getD "")
       else if jsTruthyStr l.message then l.message.getD "" else normStatusText l) ∧
    formatAttack "" = "Request processed" ∧
    (normalizeLog fallbackId fmtTs l).msg =
      (if jsTruthyStr l.threat_level = true ∧ l.threat_level ≠ some "low" then
        normMessageBase l ++ " — Threat: " ++ jsToUpper (l.threat_level.getD "")
      else normMessageBase l) := by
  refine ⟨rfl, ?_, ?_, rfl, rfl⟩
  · intro s hs
    simp only [List.mem_cons, List.not_mem_nil, or_false, not_or] at hs
    obtain ⟨h1, h2, h3, h4, h5, h6⟩ := hs
    simp [formatService, h1, h2, h3, h4, h5, h6]
  · unfold normMessageBase
    rcases l.attack_type with _ | a
    · simp [jsTruthyStr]
    · by_cases ha : a = ""
      · simp [jsTruthyStr, ha]
      · have hfa : formatAttack a ≠ "" := by
          unfold formatAttack
          split_ifs <;> simp_all
        simp [jsTruthyStr, ha, hfa]

/-- **C6, witness.**  The fallback part of `c6_normalization_amended`: an unknown
service identifier passes through unchanged. -/
theorem c6_normalization_amended_witness :
    formatService "custom_service" = "custom_service" :=
  (c6_normalization_amended ⟨none, none, none, none, none, none, none, none, none⟩
    "x" (fun _ => "t")).2.1 "custom_service" (by decide)

/-! ## Timer and module invariants of the console -/

/-- The single ref cell accounts for every alive interval: the list of scheduled,
uncancelled intervals is exactly the content of `timerRef`. -/
def TimerInv (s : SimState) : Prop := s.aliveTimers = s.timerRef.toList

/-- The active module identifier is non-null exactly in ATTACKING/BLOCKED and null
exactly in READY. -/
def ModuleInv (s : SimState) : Prop :=
  (s.activeModuleId ≠ none ↔ (s.status = .attacking ∨ s.status = .blocked)) ∧
  (s.activeModuleId = none ↔ s.status = .ready)

theorem clearTimer_timerRef (s : SimState) : (clearTimer s).timerRef = none := by
  unfold clearTimer
  cases h : s.timerRef <;> simp [h]

theorem clearTimer_status (s : SimState) : (clearTimer s).status = s.status := by
  unfold clearTimer
  cases s.timerRef <;> rfl

theorem clearTimer_activeModuleId (s : SimState) :
    (clearTimer s).activeModuleId = s.activeModuleId := by
  unfold clearTimer
  cases s.timerRef <;> rfl

theorem clearTimer_logs (s : SimState) : (clearTimer s).logs = s.logs := by
  unfold clearTimer
  cases s.timerRef <;> rfl

theorem clearTimer_timerCounter (s : SimState) :
    (clearTimer s).timerCounter = s.timerCounter := by
  unfold clearTimer
  cases s.timerRef <;> rfl

theorem timerInv_clearTimer {s : SimState} (h : TimerInv s) : TimerInv (clearTimer s) := by
  unfold TimerInv at h ⊢
  unfold clearTimer
  cases hr : s.timerRef with
  | none => rw [hr] at h; simpa [hr] using h
  | some i =>
      rw [hr] at h
      simp [hr, h]

theorem timerInv_armTimer {s : SimState} (h : TimerInv s) : TimerInv (armTimer s) := by
  have h1 := timerInv_clearTimer h
  unfold TimerInv at h1 ⊢
  rw [clearTimer_timerRef] at h1
  simp only [Option.toList] at h1
  simp [armTimer, h1]

theorem armTimer_timerCounter (s : SimState) : (armTimer s).timerCounter = 0 := rfl

theorem tick_of_timerRef_none {s : SimState} (ts msg ty : String)
    (h : s.timerRef = none) : tick ts msg ty s = s := by
  simp [tick, h]

theorem tick_of_timerRef_some {s : SimState} (ts msg ty : String) {i : ℕ}
    (h : s.timerRef = some i) :
    tick ts msg ty s =
      (if 15 ≤ s.timerCounter + 1 then
        clearTimer { s with timerCounter := s.timerCounter + 1 }
      else simAddLog ts msg ty { s with timerCounter := s.timerCounter + 1 }) := by
  simp [tick, h]

theorem timerInv_tick (ts msg ty : String) {s : SimState} (h : TimerInv s) :
    TimerInv (tick ts msg ty s) := by
  cases hr : s.timerRef with
  | none => rw [tick_of_timerRef_none ts msg ty hr]; exact h
  | some i =>
      rw [tick_of_timerRef_some ts msg ty hr]
      split
      · exact timerInv_clearTimer h
      · exact h

/-- **C7.**  Starting a second attack while ATTACKING is a complete no-op (no state
change, so no log entries, no network request and no new timer), and at most one
repeating synthetic-log timer is alive at any moment: the timer accounting
invariant `TimerInv` holds initially, is preserved by every console event (each
`setInterval` is preceded by cancelling the previous interval), and forces the
number of alive interval timers to be at most one. -/
theorem c7_single_timer :
    (∀ (toFixed1 : ℚ → String) (mid ts1 ts2 ts3 : String) (o : FetchOutcome)
        (s : SimState), s.status = .attacking →
      startAttack toFixed1 mid ts1 ts2 ts3 o s = s) ∧
    (∀ (toFixed1 : ℚ → String) (e : SimEvent) (s : SimState),
      TimerInv s → TimerInv (simStep toFixed1 e s)) ∧
    (∀ target : String, TimerInv (initSimState target)) ∧
    (∀ s : SimState, TimerInv s → s.aliveTimers.length ≤ 1) := by
  refine ⟨?_, ?_, fun _ => rfl, ?_⟩
  · intro toFixed1 mid ts1 ts2 ts3 o s h
    simp [startAttack, h]
  · intro toFixed1 e s h
    cases e with
    | start mid ts1 ts2 =>
        simp only [simStep]
        split
        · exact h
        · exact h
    | response ts o =>
        cases o with
        | okData st threat web net src =>
            simp only [simStep, respond]
            split
            · exact h
            · exact h
        | httpError emsg => exact timerInv_clearTimer h
        | netError => exact h
    | arm => exact timerInv_armTimer h
    | tickEv ts msg ty => exact timerInv_tick ts msg ty h
    | autoRet ts => exact timerInv_clearTimer h
    | stop ts1 ts2 => exact timerInv_clearTimer h
  · intro s h
    rw [TimerInv] at h
    rw [h]
    cases s.timerRef <;> simp

/-- **C7, witness.**  The no-op part of `c7_single_timer` at a concrete ATTACKING
state and the invariant-preservation part at a concrete `arm` step. -/
theorem c7_single_timer_witness :
    startAttack (fun _ => "") "sql" "a" "b" "c" .netError
        { initSimState "x" with status := .attacking } =
      { initSimState "x" with status := .attacking } ∧
    TimerInv (simStep (fun _ => "") .arm (initSimState "x")) :=
  ⟨c7_single_timer.1 (fun _ => "") "sql" "a" "b" "c" .netError
      { initSimState "x" with status := .attacking } rfl,
   c7_single_timer.2.1 (fun _ => "") .arm (initSimState "x") (c7_single_timer.2.2.1 "x")⟩

/-! ## Bounded self-termination of the synthetic-log interval -/

/-- `n` firings of the synthetic-log interval; `f` supplies the (template- and
random-driven) timestamp, message text and category of each firing. -/
def runTicks (f : ℕ → String × String × String) : ℕ → SimState → SimState
  | 0, s => s
  | n + 1, s => runTicks f n (tick (f n).1 (f n).2.1 (f n).2.2 s)

/-- Remaining log-producing capacity of the armed interval. -/
def tickPotential (s : SimState) : ℕ :=
  match s.timerRef with
  | none => 0
  | some _ => 14 - min s.timerCounter 14

theorem simAddLog_logs_length (ts msg ty : String) (s : SimState) :
    (simAddLog ts msg ty s).logs.length = min s.logs.length 100 + 1 := by
  simp [simAddLog, simAddLogList, jsSliceNeg_length]

theorem tickPotential_of_timerRef_none {s : SimState} (h : s.timerRef = none) :
    tickPotential s = 0 := by
  simp [tickPotential, h]

theorem tick_measure (ts msg ty : String) (s : SimState) :
    (tick ts msg ty s).logs.length + tickPotential (tick ts msg ty s) ≤
      s.logs.length + tickPotential s := by
  cases hr : s.timerRef with
  | none => rw [tick_of_timerRef_none ts msg ty hr]
  | some i =>
      rw [tick_of_timerRef_some ts msg ty hr]
      split
      · simp [tickPotential, clearTimer, hr, simAddLog, jsSliceNeg_length]
      · simp [tickPotential, hr, simAddLog, simAddLogList, jsSliceNeg_length]
        omega

theorem runTicks_measure (f : ℕ → String × String × String) (n : ℕ) (s : SimState) :
    (runTicks f n s).logs.length + tickPotential (runTicks f n s) ≤
      s.logs.length + tickPotential s := by
  induction n generalizing s with
  | zero => exact le_refl _
  | succ n ih =>
      calc (runTicks f (n + 1) s).logs.length + tickPotential (runTicks f (n + 1) s)
          ≤ (tick (f n).1 (f n).2.1 (f n).2.2 s).logs.length +
              tickPotential (tick (f n).1 (f n).2.1 (f n).2.2 s) :=
            ih (tick (f n).1 (f n).2.1 (f n).2.2 s)
        _ ≤ s.logs.length + tickPotential s := tick_measure _ _ _ s

theorem tick_timerCounter_of_some (ts msg ty : String) {s : SimState} {i : ℕ}
    (h : s.timerRef = some i) :
    (tick ts msg ty s).timerCounter = s.timerCounter + 1 := by
  rw [tick_of_timerRef_some ts msg ty h]
  split
  · rw [clearTimer_timerCounter]
  · rfl

theorem runTicks_of_timerRef_none (f : ℕ → String × String × String) (n : ℕ)
    {s : SimState} (h : s.timerRef = none) : runTicks f n s = s := by
  induction n generalizing s with
  | zero => rfl
  | succ n ih =>
      unfold runTicks
      rw [tick_of_timerRef_none _ _ _ h]
      exact ih h

theorem runTicks_counter (f : ℕ → String × String × String) (n : ℕ) (s : SimState) :
    (runTicks f n s).timerRef = none ∨
      (runTicks f n s).timerCounter = s.timerCounter + n := by
  induction n generalizing s with
  | zero => right; rfl
  | succ n ih =>
      cases hr : s.timerRef with
      | none =>
          left
          rw [runTicks_of_timerRef_none f (n + 1) hr]
          exact hr
      | some i =>
          unfold runTicks
          rcases ih (tick (f n).1 (f n).2.1 (f n).2.2 s) with h | h
          · left; exact h
          · right
            rw [h, tick_timerCounter_of_some _ _ _ hr]
            omega

/-- Whenever the interval is still armed, its closure counter has not yet reached
the cutoff. -/
def TickAlive (s : SimState) : Prop := s.timerRef ≠ none → s.timerCounter ≤ 14

theorem tickAlive_tick (ts msg ty : String) {s : SimState} (h : TickAlive s) :
    TickAlive (tick ts msg ty s) := by
  cases hr : s.timerRef with
  | none =>
      rw [tick_of_timerRef_none ts msg ty hr]
      exact h
  | some i =>
      rw [tick_of_timerRef_some ts msg ty hr]
      split
      · intro hne
        exact absurd (clearTimer_timerRef _) hne
      · intro _
        show s.timerCounter + 1 ≤ 14
        omega

theorem tickAlive_runTicks (f : ℕ → String × String × String) (n : ℕ) {s : SimState}
    (h : TickAlive s) : TickAlive (runTicks f n s) := by
  induction n generalizing s with
  | zero => exact h
  | succ n ih => exact ih (tickAlive_tick _ _ _ h)

/-- **C8.**  A freshly armed synthetic-log interval self-terminates after at most 15
firings — no network response is needed — and a single attack's interval appends at
most 14 synthetic log entries: after any `n ≥ 15` firings the interval has been
cleared and the log list has grown by at most 14 entries. -/
theorem c8_timer_bounded (f : ℕ → String × String × String) (s : SimState) (n : ℕ)
    (h0 : s.timerCounter = 0) (hn : 15 ≤ n) :
    (runTicks f n s).timerRef = none ∧
    (runTicks f n s).logs.length ≤ s.logs.length + 14 := by
  constructor
  · rcases runTicks_counter f n s with h | h
    · exact h
    · by_contra hne
      have halive := tickAlive_runTicks f n
        (s := s) (fun _ => by omega) hne
      omega
  · have hm := runTicks_measure f n s
    have hpot : tickPotential s ≤ 14 := by
      cases ht : s.timerRef <;> simp [tickPotential, ht]
    omega

/-- **C8, witness.**  `c8_timer_bounded` for an interval armed on the initial state,
run for exactly 15 firings. -/
theorem c8_timer_bounded_witness :
    (runTicks (fun _ => ("t", "m", "info")) 15 (armTimer (initSimState "x"))).timerRef
      = none ∧
    (runTicks (fun _ => ("t", "m", "info")) 15 (armTimer (initSimState "x"))).logs.length
      ≤ (armTimer (initSimState "x")).logs.length + 14 :=
  c8_timer_bounded (fun _ => ("t", "m", "info")) (armTimer (initSimState "x")) 15
    (armTimer_timerCounter _) (by norm_num)

/-! ## The module/status invariant -/

theorem armTimer_status (s : SimState) : (armTimer s).status = s.status := by
  simp [armTimer, clearTimer_status]

theorem armTimer_activeModuleId (s : SimState) :
    (armTimer s).activeModuleId = s.activeModuleId := by
  simp [armTimer, clearTimer_activeModuleId]

theorem respond_okData_blocked (toFixed1 : ℚ → String) (ts : String)
    (st threat : Option String) (web net : Option ℚ) (src : Option String)
    (s : SimState) (hb : jsOrStr st "allowed" = "blocked") :
    (respond toFixed1 ts (.okData st threat web net src) s).status = .blocked ∧
    (respond toFixed1 ts (.okData st threat web net src) s).activeModuleId =
      s.activeModuleId := by
  simp [respond, hb, simAddLog]

theorem respond_okData_allowed (toFixed1 : ℚ → String) (ts : String)
    (st threat : Option String) (web net : Option ℚ) (src : Option String)
    (s : SimState) (hb : ¬ jsOrStr st "allowed" = "blocked") :
    (respond toFixed1 ts (.okData st threat web net src) s).status = s.status ∧
    (respond toFixed1 ts (.okData st threat web net src) s).activeModuleId =
      s.activeModuleId := by
  simp [respond, hb, simAddLog]

/-- **C10, counterexample.**  Blocked-response handling does not preserve the
invariant: start an attack, stop it manually (back to READY with a null module),
and then let the still-in-flight response arrive with `status: "blocked"` — the
handler unconditionally sets the state to BLOCKED while the module identifier
stays null, violating the invariant from an invariant-satisfying state. -/
theorem c10_module_invariant_counterexample :
    ModuleInv (simStep (fun _ => "") (.stop "t3" "t4")
        (simStep (fun _ => "") (.start "sql" "t1" "t2") (initSimState "x"))) ∧
    (simStep (fun _ => "") (.response "t5" (.okData (some "blocked") none none none none))
        (simStep (fun _ => "") (.stop "t3" "t4")
          (simStep (fun _ => "") (.start "sql" "t1" "t2") (initSimState "x")))).status
      = SimStatus.blocked ∧
    (simStep (fun _ => "") (.response "t5" (.okData (some "blocked") none none none none))
        (simStep (fun _ => "") (.stop "t3" "t4")
          (simStep (fun _ => "") (.start "sql" "t1" "t2")
            (initSimState "x")))).activeModuleId = none ∧
    ¬ ModuleInv (simStep (fun _ => "")
        (.response "t5" (.okData (some "blocked") none none none none))
        (simStep (fun _ => "") (.stop "t3" "t4")
          (simStep (fun _ => "") (.start "sql" "t1" "t2") (initSimState "x")))) := by
  refine ⟨⟨?_, ?_⟩, rfl, rfl, ?_⟩
  · exact ⟨fun hx => absurd rfl hx, fun hx => by rcases hx with h | h <;> exact absurd h (by decide)⟩
  · exact ⟨fun _ => rfl, fun _ => rfl⟩
  · intro hinv
    exact absurd (hinv.1.mpr (Or.inr rfl)) (fun hx => hx rfl)

/-- **C10 (amended).**  Every console operation preserves the invariant "the active
module identifier is non-null exactly in ATTACKING/BLOCKED and null exactly in
READY", with one proviso forced by the counterexample: a blocked network response
must be handled while the console is not READY (that is, no manual stop slipped in
between request and response); all other operations preserve it unconditionally. -/
theorem c10_module_invariant_amended (toFixed1 : ℚ → String) (e : SimEvent)
    (s : SimState) (hinv : ModuleInv s)
    (hresp : ∀ (ts : String) (st threat : Option String) (web net : Option ℚ)
        (src : Option String), e = .response ts (.okData st threat web net src) →
        jsOrStr st "allowed" = "blocked" → s.status ≠ .ready) :
    ModuleInv (simStep toFixed1 e s) := by
  cases e with
  | start mid ts1 ts2 =>
      simp only [simStep]
      split
      · exact hinv
      · constructor <;> simp [beginAttack, simAddLog]
  | response ts o =>
      cases o with
      | okData st threat web net src =>
          by_cases hb : jsOrStr st "allowed" = "blocked"
          · have hs := hresp ts st threat web net src rfl hb
            have hm : s.activeModuleId ≠ none := fun hx => hs (hinv.2.mp hx)
            have hch := respond_okData_blocked toFixed1 ts st threat web net src s hb
            refine ⟨?_, ?_⟩
            · rw [show (simStep toFixed1 (.response ts (.okData st threat web net src)) s)
                  = respond toFixed1 ts (.okData st threat web net src) s from rfl,
                hch.1, hch.2]
              exact ⟨fun _ => Or.inr rfl, fun _ => hm⟩
            · rw [show (simStep toFixed1 (.response ts (.okData st threat web net src)) s)
                  = respond toFixed1 ts (.okData st threat web net src) s from rfl,
                hch.1, hch.2]
              exact ⟨fun hx => absurd hx hm, fun hx => nomatch hx⟩
          · have hch := respond_okData_allowed toFixed1 ts st threat web net src s hb
            have h1 := hch.1
            have h2 := hch.2
            unfold ModuleInv
            rw [show (simStep toFixed1 (.response ts (.okData st threat web net src)) s)
                = respond toFixed1 ts (.okData st threat web net src) s from rfl, h1, h2]
            exact hinv
      | httpError emsg =>
          refine ⟨?_, ?_⟩ <;> simp [simStep, respond, simAddLog]
      | netError => exact hinv
  | arm =>
      unfold ModuleInv
      rw [show (simStep toFixed1 .arm s) = armTimer s from rfl,
        armTimer_status, armTimer_activeModuleId]
      exact hinv
  | tickEv ts msg ty =>
      show ModuleInv (tick ts msg ty s)
      cases hr : s.timerRef with
      | none => rw [tick_of_timerRef_none ts msg ty hr]; exact hinv
      | some i =>
          rw [tick_of_timerRef_some ts msg ty hr]
          split
          · unfold ModuleInv
            rw [clearTimer_status, clearTimer_activeModuleId]
            exact hinv
          · exact hinv
  | autoRet ts =>
      refine ⟨?_, ?_⟩ <;> simp [simStep, autoReturn, simAddLog]
  | stop ts1 ts2 =>
      refine ⟨?_, ?_⟩ <;> simp [simStep, stopAttack, simAddLog]

/-- **C10, witness.**  `c10_module_invariant_amended` at a concrete `arm` event on
the initial state (the response-side proviso holds vacuously). -/
theorem c10_module_invariant_amended_witness :
    ModuleInv (simStep (fun _ => "") .arm (initSimState "x")) :=
  c10_module_invariant_amended (fun _ => "") .arm (initSimState "x")
    ⟨⟨fun hx => absurd rfl hx, fun hx => by rcases hx with h | h <;> exact nomatch h⟩,
     ⟨fun _ => rfl, fun _ => rfl⟩⟩
    (fun ts st threat web net src h => nomatch h)

end ServerGuard
